import Mathlib

/-!
Shallow embedding of the `event-listener` notification primitive.

The embedding covers the data model and operations of `src/src/lib.rs`:
the lazily created shared state (`Inner`), the `Event` handle and its
`notify` gating logic, the listener `State` machine, `RegisterResult`,
`discard`, the destructor removal, and the blocking wait loop of
`Listener::wait_with_parker`.

The waiter registry itself lives in `src/std.rs` / `src/no_std.rs`
(`mod sys`) and the notification configuration in `src/notify.rs`; those
files are not part of the available sources, so the registry operations
(insert, register, notify walk, remove with cascade) and the
configuration record are modelled from the specification (sections 3,
4.2 and 4.4), as indicated on each definition.

Concurrency is modelled sequentially: every operation is a pure state
transformer on the shared state, memory fences have no observable
effect, and Rust panics are modelled as `Except.error` values carrying
the panic message.  Wake-handle invocations are recorded as the list of
ids of woken nodes.
-/

namespace EventListener

/-- usize::MAX on a 64-bit platform; machine integers are modelled as `Nat`
with this explicit bound where it matters. -/
def usizeMAX : Nat := 2 ^ 64 - 1

/-- Listener state, from `enum State<T>` in src/src/lib.rs lines 922-944.
The wake handle carried by the `Task` constructor is abstracted away: only
the fact that a task is attached (and hence would be woken on promotion) is
observable in this model. -/
inductive State (T : Type) where
  | Created : State T
  | Notified : Bool → T → State T
  | Task : State T
  | NotifiedTaken : State T
  deriving DecidableEq

variable {T : Type}

/-- State::is_notified from src/src/lib.rs lines 947-949. -/
def State.is_notified : State T → Bool
  | State.Notified _ _ => true
  | State.NotifiedTaken => true
  | _ => false

/-- Whether a task (wake handle) is attached to this state. -/
def State.is_task : State T → Bool
  | State.Task => true
  | _ => false

/-- State::notified from src/src/lib.rs lines 952-958.  The Rust panic in the
NotifiedTaken case is modelled as an `Except.error` carrying the panic
message; it is never an ordinary value the caller could branch on. -/
def State.notified : State T → Except String (Option T)
  | State.Notified _ tag => Except.ok (some tag)
  | State.NotifiedTaken => Except.error "listener was already notified but taken"
  | State.Created => Except.ok none
  | State.Task => Except.ok none

/-- RegisterResult from src/src/lib.rs lines 962-972. -/
inductive RegisterResult (T : Type) where
  | Notified : T → RegisterResult T
  | Registered : RegisterResult T
  | NeverInserted : RegisterResult T
  deriving DecidableEq

/-- RegisterResult::notified from src/src/lib.rs lines 978-984; the panic on
NeverInserted is modelled as an `Except.error`. -/
def RegisterResult.notified : RegisterResult T → Except String (Option T)
  | RegisterResult.Notified tag => Except.ok (some tag)
  | RegisterResult.Registered => Except.ok none
  | RegisterResult.NeverInserted =>
      Except.error "listener was never inserted into the list"

/-- The shared state (`Inner` in src/src/lib.rs lines 117-130).  The waiter
registry (`sys::List`, in the unavailable src/std.rs / src/no_std.rs) is
modelled from the spec as the ordered list of waiter slots, ordering =
insertion order (spec section 3); each node is addressed by a stable id, per
spec design note 9.  The atomic notified counter is derived below. -/
structure Inner (T : Type) where
  nodes : List (Nat × State T)
  nextId : Nat
  deriving DecidableEq

/-- Inner::new from src/src/lib.rs lines 133-138: empty registry. -/
def Inner.new : Inner T := ⟨[], 0⟩

/-- The number of notified entries currently in the registry. -/
def Inner.notifiedCount (i : Inner T) : Nat :=
  (i.nodes.filter (fun p => p.2.is_notified)).length

/-- Modelled from the spec: the saturating notified counter kept in the shared
state -- the number of notified entries, or usize::MAX if all of them
(possibly none) have been notified (doc comment on `Inner::notified`,
src/src/lib.rs lines 119-122, and spec section 3: the "all" sentinel means an
empty or fully satisfied registry). -/
def Inner.notified_atomic (i : Inner T) : Nat :=
  if i.notifiedCount < i.nodes.length then i.notifiedCount else usizeMAX

/-- Modelled from the spec: a Notification Configuration, spec section 3 --
count, additional flag, relaxed flag and the tag to deliver (src/notify.rs is
not among the available sources).  `relaxed` only suppresses a memory fence
and has no observable effect in this sequential model. -/
structure Notification (T : Type) where
  count : Nat
  additional : Bool
  relaxed : Bool
  tag : T
  deriving DecidableEq

/-- Modelled from the spec: the registry notify walk, spec section 4.2: walk
the logical order from the head; a node already notified is passed over (and
counts toward the running notified-count); a not-yet-notified node is
promoted to `Notified` while under the limit -- for an additional
notification the limit is `count` newly promoted waiters, otherwise the
running notified-count must stay below `count` -- and its wake handle is
invoked if attached; once the limit is met the walk stops.  Returns the new
list together with the ids of the woken nodes, in promotion (FIFO) order. -/
def notifyLoop (count : Nat) (additional : Bool) (tag : T) :
    List (Nat × State T) → Nat → Nat → List (Nat × State T) × List Nat
  | [], _, _ => ([], [])
  | (id, s) :: rest, running, promoted =>
    if s.is_notified then
      let r := notifyLoop count additional tag rest (running + 1) promoted
      ((id, s) :: r.1, r.2)
    else if (if additional then promoted < count else running < count) then
      let r := notifyLoop count additional tag rest (running + 1) (promoted + 1)
      ((id, State.Notified additional tag) :: r.1,
        if s.is_task then id :: r.2 else r.2)
    else
      ((id, s) :: rest, [])

/-- Modelled from the spec: registry notify lifted to the shared state
(`Inner::notify`, forwarded to `sys::List` in the unavailable sources). -/
def Inner.notify (i : Inner T) (n : Notification T) : Inner T × List Nat :=
  let r := notifyLoop n.count n.additional n.tag i.nodes 0 0
  (⟨r.1, i.nextId⟩, r.2)

/-- The `Event` handle, src/src/lib.rs lines 160-167: an atomic pointer to the
lazily created shared state, modelled as an optional `Inner` where `none` is
the null pointer. -/
abbrev Event (T : Type) : Type := Option (Inner T)

/-- Event::with_tag from src/src/lib.rs lines 201-205: the pointer starts
null. -/
def Event.with_tag : Event T := none

/-- Event::try_inner from src/src/lib.rs lines 365-368: a reference to the
inner state only if it has been initialized. -/
def Event.try_inner (e : Event T) : Option (Inner T) := e

/-- Event::notify from src/src/lib.rs lines 342-361: apply the fence policy
(no observable effect here), and only if the shared state exists compute the
effective limit -- usize::MAX for an additional notification, the
configuration's count otherwise -- and instruct the registry to notify only
when the current notified-count is strictly below that limit.  Returns the
new handle state and the ids of woken listeners. -/
def Event.notify (e : Event T) (n : Notification T) : Event T × List Nat :=
  match Event.try_inner e with
  | none => (e, [])
  | some inner =>
    let limit := if n.additional then usizeMAX else n.count
    if Inner.notified_atomic inner < limit then
      let r := Inner.notify inner n
      (some r.1, r.2)
    else
      (e, [])

/-- Modelled from the spec: registry insert, spec section 4.2: append a node
in `Created` state at the logical tail.  The high-contention fallback queue
is drained before any later operation observes the list, so the sequential
model appends directly. -/
def Inner.insert (i : Inner T) : Inner T × Nat :=
  (⟨i.nodes ++ [(i.nextId, State.Created)], i.nextId + 1⟩, i.nextId)

/-- Event::listen from src/src/lib.rs lines 222-226 together with the lazy
initialization of lines 374-405: ensure the shared state exists, insert a new
listener in `Created` state, return the new handle state and the listener's
id.  The trailing full fence has no observable effect here. -/
def Event.listen (e : Event T) : Event T × Nat :=
  let inner := match e with
    | none => Inner.new
    | some i => i
  let r := Inner.insert inner
  (some r.1, r.2)

/-- Look up the state of the node with the given id. -/
def Inner.lookup (i : Inner T) (id : Nat) : Option (State T) :=
  (i.nodes.find? (fun p => p.1 == id)).map (fun p => p.2)

/-- Modelled from the spec: registry remove, spec section 4.2: detach the
node from the registry order regardless of state and return its final state.
If `was_dropped` is true and the final state is `Notified` (but not yet
`NotifiedTaken`), promote exactly one more previously-unsatisfied waiter in
FIFO order and wake it (the cascade), re-delivering the dropped
notification's tag; an explicit removal (`was_dropped` false) never
cascades.  Node ids are unique along any reachable execution, so removal is
a filter on the id. -/
def Inner.remove (i : Inner T) (id : Nat) (was_dropped : Bool) :
    Inner T × Option (State T) × List Nat :=
  match Inner.lookup i id with
  | none => (i, none, [])
  | some s =>
    let rest := i.nodes.filter (fun p => !(p.1 == id))
    match was_dropped, s with
    | true, State.Notified _ tag =>
      let r := notifyLoop 1 true tag rest 0 0
      (⟨r.1, i.nextId⟩, some s, r.2)
    | _, _ => (⟨rest, i.nextId⟩, some s, [])

/-- Replace the state of the node with the given id. -/
def setState (nodes : List (Nat × State T)) (id : Nat) (s : State T) :
    List (Nat × State T) :=
  nodes.map (fun p => if p.1 == id then (p.1, s) else p)

/-- Modelled from the spec: registry register, spec section 4.2: if the node
is already `Notified`, that result is returned immediately and the tag is
consumed (the node becomes `NotifiedTaken`, the "waiter reading the result"
transition of the spec section 3 lifecycle); otherwise the wake handle is
attached and the node transitions to `Task`, returning `Registered`; a node
not present in the registry yields `NeverInserted`. -/
def Inner.register (i : Inner T) (id : Nat) : Inner T × RegisterResult T :=
  match Inner.lookup i id with
  | none => (i, RegisterResult.NeverInserted)
  | some (State.Notified _ tag) =>
      (⟨setState i.nodes id State.NotifiedTaken, i.nextId⟩,
        RegisterResult.Notified tag)
  | some _ =>
      (⟨setState i.nodes id State.Task, i.nextId⟩, RegisterResult.Registered)

/-- The result of polling a listener. -/
inductive Poll (T : Type) where
  | Ready : T → Poll T
  | Pending : Poll T
  deriving DecidableEq

/-- Listener::poll_internal from src/src/lib.rs lines 892-910: register the
task's waker, return `Ready` with the tag if a notification was already
delivered, `Pending` otherwise; a never-inserted listener is a contract
violation surfaced as a panic (an `Except.error` here). -/
def Listener.poll_internal (i : Inner T) (id : Nat) :
    Inner T × Except String (Poll T) :=
  let r := Inner.register i id
  (r.1, (RegisterResult.notified r.2).map (fun o =>
    match o with
    | some tag => Poll.Ready tag
    | none => Poll.Pending))

/-- Listener::discard from src/src/lib.rs lines 883-889: remove self from the
registry with `was_dropped` = false (so no cascade is triggered) and report
whether a notification was present on the node. -/
def Listener.discard (i : Inner T) (id : Nat) : Inner T × Bool :=
  let r := Inner.remove i id false
  (r.1, (r.2.1.map State.is_notified).getD false)

/-- Drop for Listener from src/src/lib.rs lines 913-920: the destructor
removes self from the registry with `was_dropped` = true.  Returns the new
shared state and the ids woken by a cascade, if any. -/
def Listener.drop (i : Inner T) (id : Nat) : Inner T × List Nat :=
  let r := Inner.remove i id true
  (r.1, r.2.2)

/-- The timeout branch of Listener::wait_with_parker, src/src/lib.rs lines
863-870: once the deadline has passed, remove self (`was_dropped` = false, no
cascade) and return the removed state's notification; the expect on a
missing entry and the `NotifiedTaken` read are panics, modelled as
`Except.error`. -/
def Listener.timeout_return (i : Inner T) (id : Nat) :
    Inner T × Except String (Option T) :=
  let r := Inner.remove i id false
  match r.2.1 with
  | none => (r.1, Except.error "We never removed ourself from the list")
  | some s => (r.1, State.notified s)

/-- The waiting loop of Listener::wait_with_parker, src/src/lib.rs lines
856-879, driven by a trace with one entry per iteration: the time sampled at
the top of the iteration and the result of the register call at its end
(`some tag` when the registration reports an existing notification, `none`
when it reports `Registered` and the loop parks again).  With a deadline, a
sampled time at or past it returns the timeout branch's value `onTimeout`
(standing for remove-then-notified); with no deadline the loop only parks
and re-registers.  The overall result is `none` while the trace ends with
the loop still waiting, `some r` once the loop returns `r`. -/
def waitLoop (deadline : Option Nat) (onTimeout : Option T) :
    List (Nat × Option T) → Option (Option T)
  | [] => none
  | (now, reg) :: rest =>
    match deadline with
    | some d =>
      if d ≤ now then some onTimeout
      else
        match reg with
        | some tag => some (some tag)
        | none => waitLoop deadline onTimeout rest
    | none =>
      match reg with
      | some tag => some (some tag)
      | none => waitLoop deadline onTimeout rest

/-- Listener::wait_with_parker, src/src/lib.rs lines 842-879: the initial
registration (lines 850-854) may already yield a notification; otherwise the
waiting loop runs. -/
def wait_with_parker (deadline : Option Nat) (initReg : Option T)
    (onTimeout : Option T) (trace : List (Nat × Option T)) :
    Option (Option T) :=
  match initReg with
  | some tag => some (some tag)
  | none => waitLoop deadline onTimeout trace

/-- Instant::checked_add modelled on `Nat` instants with an explicit
representable upper bound; `none` models arithmetic overflow of the
deadline. -/
def instant_checked_add (bound now d : Nat) : Option Nat :=
  if now + d ≤ bound then some (now + d) else none

/-- EventListener::wait_timeout from src/src/lib.rs lines 674-677: the
deadline passed to the wait loop is `Instant::now().checked_add(timeout)`,
which is no deadline at all when the addition overflows. -/
def wait_timeout (bound now d : Nat) (initReg : Option T)
    (onTimeout : Option T) (trace : List (Nat × Option T)) :
    Option (Option T) :=
  wait_with_parker (instant_checked_add bound now d) initReg onTimeout trace

/-- Once the promotion budget of an additional notification is exhausted, the
notify walk leaves the rest of the registry untouched and wakes nobody. -/
theorem notifyLoop_saturated (count : Nat) (tag : T) (l : List (Nat × State T)) :
    ∀ (running promoted : Nat), count ≤ promoted →
      notifyLoop count true tag l running promoted = (l, []) := by
  induction l with
  | nil => intro _ _ _; rfl
  | cons hd tl ih =>
    intro running promoted h
    obtain ⟨id, s⟩ := hd
    unfold notifyLoop
    by_cases hs : s.is_notified = true
    · simp [hs, ih (running + 1) promoted h]
    · simp [hs, Nat.not_lt.mpr h]

/-- A single additional notification promotes exactly the earliest
unsatisfied waiter: every already-notified node before it is passed over
unchanged, the first unsatisfied node becomes Notified and is woken exactly
when a task was attached, and everything after it is untouched. -/
theorem notifyLoop_promotes_first (tag : T) (pre : List (Nat × State T)) :
    ∀ (id : Nat) (s : State T) (post : List (Nat × State T)) (running : Nat),
      (∀ p ∈ pre, p.2.is_notified = true) → s.is_notified = false →
      notifyLoop 1 true tag (pre ++ (id, s) :: post) running 0 =
        (pre ++ (id, State.Notified true tag) :: post,
          if s.is_task then [id] else []) := by
  induction pre with
  | nil =>
    intro id s post running _ hs
    unfold notifyLoop
    simp [hs, notifyLoop_saturated 1 tag post (running + 1) 1 (le_refl 1)]
  | cons hd tl ih =>
    intro id s post running hpre hs
    obtain ⟨hid, hst⟩ := hd
    unfold notifyLoop
    simp [hpre ⟨hid, hst⟩ (List.mem_cons_self _ _),
      ih id s post (running + 1) (fun p hp => hpre p (List.mem_cons_of_mem _ hp)) hs]

/-- After filtering out an id, no node with that id can be found. -/
theorem find_after_filter_none (l : List (Nat × State T)) (id : Nat) :
    (l.filter (fun p => !(p.1 == id))).find? (fun p => p.1 == id) = none := by
  rw [List.find?_eq_none]
  intro p hp
  have h := (List.mem_filter.mp hp).2
  simp only [Bool.not_eq_true', beq_eq_false_iff_ne] at h ⊢
  simpa using h

/-- C9: reading the tag of a node whose state is NotifiedTaken
(double-consumption) is a programmer-contract violation surfaced as a panic,
never as a value to branch on: State::notified panics (an error in this
model) in the NotifiedTaken case, returns the tag for Notified, and no
notification otherwise. -/
theorem notified_panics_on_taken :
    (∀ (T : Type) (a : Bool) (t : T),
      State.notified (State.Notified a t) = Except.ok (some t)) ∧
    (∀ (T : Type), State.notified (State.NotifiedTaken : State T) =
      Except.error "listener was already notified but taken") ∧
    (∀ (T : Type), State.notified (State.Created : State T) = Except.ok none) ∧
    (∀ (T : Type), State.notified (State.Task : State T) = Except.ok none) :=
  ⟨fun _ _ _ => rfl, fun _ => rfl, fun _ => rfl, fun _ => rfl⟩

/-- C3: on a freshly constructed handle, whose inner pointer is null, notify
with any count and any configuration is a pure no-op: the handle state is
unchanged (still null), nobody is woken, no shared state is allocated and no
panic can occur (the model is a total function). -/
theorem notify_no_listeners_noop :
    ∀ (T : Type) (n : Notification T),
      (Event.with_tag : Event T) = none ∧
      Event.notify (Event.with_tag : Event T) n = (Event.with_tag, []) :=
  fun _ _ => ⟨rfl, rfl⟩

/-- C1: for every notification applied on a handle whose shared state exists,
the effective limit is usize::MAX when the configuration is additional and
the configuration's count otherwise, and the registry is instructed to
promote waiters exactly when the current notified-count is strictly below
that limit; otherwise the state is returned untouched and nobody wakes. -/
theorem notify_effective_limit :
    ∀ (T : Type) (i : Inner T) (n : Notification T),
      Event.notify (some i) n =
        (if Inner.notified_atomic i <
            (if n.additional then usizeMAX else n.count)
         then (some (Inner.notify i n).1, (Inner.notify i n).2)
         else (some i, [])) :=
  fun _ _ _ => rfl

/-- C4: listeners L1 (id 0), L2 (id 1), L3 (id 2) created in that order and
polled once (so each is in Task state); notify(2) promotes L1 and L2 in FIFO
order and wakes both; the following notify(1) is a no-op because its limit 1
is not above the running notified-count 2; afterwards L1 and L2 poll Ready
and L3 polls Pending. -/
theorem fifo_fairness_scenario :
    Event.listen (none : Event Unit) = (some ⟨[(0, State.Created)], 1⟩, 0) ∧
    Event.listen (some (⟨[(0, State.Created)], 1⟩ : Inner Unit)) =
      (some ⟨[(0, State.Created), (1, State.Created)], 2⟩, 1) ∧
    Event.listen
        (some (⟨[(0, State.Created), (1, State.Created)], 2⟩ : Inner Unit)) =
      (some ⟨[(0, State.Created), (1, State.Created), (2, State.Created)], 3⟩,
        2) ∧
    Listener.poll_internal
        (⟨[(0, State.Created), (1, State.Created), (2, State.Created)], 3⟩ :
          Inner Unit) 0 =
      (⟨[(0, State.Task), (1, State.Created), (2, State.Created)], 3⟩,
        Except.ok Poll.Pending) ∧
    Listener.poll_internal
        (⟨[(0, State.Task), (1, State.Created), (2, State.Created)], 3⟩ :
          Inner Unit) 1 =
      (⟨[(0, State.Task), (1, State.Task), (2, State.Created)], 3⟩,
        Except.ok Poll.Pending) ∧
    Listener.poll_internal
        (⟨[(0, State.Task), (1, State.Task), (2, State.Created)], 3⟩ :
          Inner Unit) 2 =
      (⟨[(0, State.Task), (1, State.Task), (2, State.Task)], 3⟩,
        Except.ok Poll.Pending) ∧
    Event.notify
        (some (⟨[(0, State.Task), (1, State.Task), (2, State.Task)], 3⟩ :
          Inner Unit)) ⟨2, false, false, ()⟩ =
      (some ⟨[(0, State.Notified false ()), (1, State.Notified false ()),
        (2, State.Task)], 3⟩, [0, 1]) ∧
    Event.notify
        (some (⟨[(0, State.Notified false ()), (1, State.Notified false ()),
          (2, State.Task)], 3⟩ : Inner Unit)) ⟨1, false, false, ()⟩ =
      (some ⟨[(0, State.Notified false ()), (1, State.Notified false ()),
        (2, State.Task)], 3⟩, []) ∧
    Listener.poll_internal
        (⟨[(0, State.Notified false ()), (1, State.Notified false ()),
          (2, State.Task)], 3⟩ : Inner Unit) 0 =
      (⟨[(0, State.NotifiedTaken), (1, State.Notified false ()),
        (2, State.Task)], 3⟩, Except.ok (Poll.Ready ())) ∧
    Listener.poll_internal
        (⟨[(0, State.NotifiedTaken), (1, State.Notified false ()),
          (2, State.Task)], 3⟩ : Inner Unit) 1 =
      (⟨[(0, State.NotifiedTaken), (1, State.NotifiedTaken),
        (2, State.Task)], 3⟩, Except.ok (Poll.Ready ())) ∧
    Listener.poll_internal
        (⟨[(0, State.NotifiedTaken), (1, State.NotifiedTaken),
          (2, State.Task)], 3⟩ : Inner Unit) 2 =
      (⟨[(0, State.NotifiedTaken), (1, State.NotifiedTaken),
        (2, State.Task)], 3⟩, Except.ok Poll.Pending) :=
  ⟨rfl, rfl, rfl, rfl, rfl, rfl, rfl, rfl, rfl, rfl, rfl⟩

/-- C5: with L1 (id 0), L2 (id 1), L3 (id 2) created in that order and none
yet notified, two successive additional notifications of count 1 promote
exactly L1 and then exactly L2 (each call changes exactly one
previously-unsatisfied waiter), and a third such call promotes L3. -/
theorem additional_cumulative_scenario :
    Event.notify
        (some (⟨[(0, State.Created), (1, State.Created), (2, State.Created)],
          3⟩ : Inner Unit)) ⟨1, true, false, ()⟩ =
      (some ⟨[(0, State.Notified true ()), (1, State.Created),
        (2, State.Created)], 3⟩, []) ∧
    Event.notify
        (some (⟨[(0, State.Notified true ()), (1, State.Created),
          (2, State.Created)], 3⟩ : Inner Unit)) ⟨1, true, false, ()⟩ =
      (some ⟨[(0, State.Notified true ()), (1, State.Notified true ()),
        (2, State.Created)], 3⟩, []) ∧
    Event.notify
        (some (⟨[(0, State.Notified true ()), (1, State.Notified true ()),
          (2, State.Created)], 3⟩ : Inner Unit)) ⟨1, true, false, ()⟩ =
      (some ⟨[(0, State.Notified true ()), (1, State.Notified true ()),
        (2, State.Notified true ())], 3⟩, []) :=
  ⟨rfl, rfl, rfl⟩

/-- C2: removing a dropped listener whose final state is Notified (not yet
NotifiedTaken) with was_dropped = true detaches it, wherever it sits in the
registry (A is everything before it, B everything after it), and promotes
exactly one more previously-unsatisfied waiter, the earliest one in FIFO
order among the remaining nodes (pre are the notified nodes before it),
re-delivering the dropped tag, and wakes it exactly when a task was
attached; so a delivered-but-unconsumed notification is never lost to
cancellation. -/
theorem cascade_on_drop :
    ∀ (T : Type) (did : Nat) (a : Bool) (t : T)
      (A B pre post : List (Nat × State T)) (id : Nat) (s : State T)
      (nid : Nat),
      (∀ p ∈ A, p.1 ≠ did) → (∀ p ∈ B, p.1 ≠ did) →
      A ++ B = pre ++ (id, s) :: post →
      (∀ p ∈ pre, p.2.is_notified = true) →
      s.is_notified = false →
      Inner.remove ⟨A ++ (did, State.Notified a t) :: B, nid⟩ did true =
        (⟨pre ++ (id, State.Notified true t) :: post, nid⟩,
          some (State.Notified a t), if s.is_task then [id] else []) := by
  intro T did a t A B pre post id s nid hA hB hdec hpre hs
  have hfindA : A.find? (fun p => p.1 == did) = none := by
    rw [List.find?_eq_none]
    intro p hp
    simpa using hA p hp
  have hlook :
      Inner.lookup (⟨A ++ (did, State.Notified a t) :: B, nid⟩ : Inner T)
        did = some (State.Notified a t) := by
    unfold Inner.lookup
    rw [List.find?_append, hfindA]
    simp
  have hfilter :
      (A ++ (did, State.Notified a t) :: B).filter
          (fun p => !(p.1 == did)) = A ++ B := by
    rw [List.filter_append, List.filter_cons_of_neg (by simp)]
    congr 1
    · rw [List.filter_eq_self]
      intro p hp
      simpa using hA p hp
    · rw [List.filter_eq_self]
      intro p hp
      simpa using hB p hp
  unfold Inner.remove
  rw [hlook]
  simp only [hfilter, hdec, notifyLoop_promotes_first t pre id s post 0 hpre hs]

/-- C6: once the running notified-count is at least j, a non-additional
notification of count j (j being a usize) is a no-op: the shared state and
every waiter's state are unchanged and nobody is woken, so repeated such
calls are idempotent. -/
theorem notify_idempotent_below_count :
    ∀ (T : Type) (i : Inner T) (j : Nat) (rel : Bool) (tag : T),
      j ≤ Inner.notifiedCount i → j ≤ usizeMAX →
      Event.notify (some i) ⟨j, false, rel, tag⟩ = (some i, []) := by
  intro T i j rel tag hj hmax
  have hlim : ¬ Inner.notified_atomic i < j := by
    unfold Inner.notified_atomic
    split <;> omega
  simp [Event.notify, Event.try_inner, hlim]

/-- C7: discard removes the guard from the registry with was_dropped = false,
so no cascade is triggered (the remaining nodes are exactly the original
ones minus the discarded guard, untouched), and it returns true exactly when
a notification was present on the node; afterwards the node is gone from the
registry. -/
theorem discard_no_cascade :
    ∀ (T : Type) (i : Inner T) (id : Nat) (s : State T),
      Inner.lookup i id = some s →
      Listener.discard i id =
        (⟨i.nodes.filter (fun p => !(p.1 == id)), i.nextId⟩,
          s.is_notified) ∧
      Inner.lookup (Listener.discard i id).1 id = none := by
  intro T i id s h
  have hd : Listener.discard i id =
      (⟨i.nodes.filter (fun p => !(p.1 == id)), i.nextId⟩, s.is_notified) := by
    unfold Listener.discard Inner.remove
    rw [h]
    cases s <;> simp [State.is_notified]
  refine ⟨hd, ?_⟩
  rw [hd]
  simp [Inner.lookup, find_after_filter_none]

/-- The notification carried by a final state, if any: the tag for a
Notified state, nothing otherwise. -/
def State.notifiedTag : State T → Option T
  | State.Notified _ t => some t
  | _ => none

/-- C8: when the deadline is reached before a notification arrives, the wait
loop returns the timeout branch's value, and that branch removes the guard
from the registry (with was_dropped = false, so without cascading) and
returns no notification unless the node's final state at removal is
Notified, in which case the tag is still returned; afterwards the node is no
longer present in the registry. -/
theorem timeout_removes_node :
    ∀ (T : Type) (i : Inner T) (id : Nat) (s : State T) (dl now : Nat)
      (ot rr : Option T) (rest : List (Nat × Option T)),
      Inner.lookup i id = some s → s ≠ State.NotifiedTaken → dl ≤ now →
      waitLoop (some dl) ot ((now, rr) :: rest) = some ot ∧
      Listener.timeout_return i id =
        (⟨i.nodes.filter (fun p => !(p.1 == id)), i.nextId⟩,
          Except.ok (State.notifiedTag s)) ∧
      Inner.lookup (Listener.timeout_return i id).1 id = none := by
  intro T i id s dl now ot rr rest h hns hdl
  have h1 : waitLoop (some dl) ot ((now, rr) :: rest) = some ot := by
    unfold waitLoop
    simp [hdl]
  have h2 : Listener.timeout_return i id =
      (⟨i.nodes.filter (fun p => !(p.1 == id)), i.nextId⟩,
        Except.ok (State.notifiedTag s)) := by
    unfold Listener.timeout_return Inner.remove
    rw [h]
    cases s with
    | Created => simp [State.notified, State.notifiedTag]
    | Notified a t => simp [State.notified, State.notifiedTag]
    | Task => simp [State.notified, State.notifiedTag]
    | NotifiedTaken => exact absurd rfl hns
  refine ⟨h1, h2, ?_⟩
  rw [h2]
  simp [Inner.lookup, find_after_filter_none]

/-- In the wait loop with no deadline, the only way to return is with a
notification: a result is never the timeout value None. -/
theorem waitLoop_none_yields_notification (ot : Option T) :
    ∀ (trace : List (Nat × Option T)) (r : Option T),
      waitLoop none ot trace = some r → ∃ t, r = some t := by
  intro trace
  induction trace with
  | nil =>
    intro r h
    exact absurd h (by simp [waitLoop])
  | cons hd tl ih =>
    intro r h
    obtain ⟨now, reg⟩ := hd
    unfold waitLoop at h
    cases reg with
    | some tag =>
      refine ⟨tag, ?_⟩
      simpa using h.symm
    | none => exact ih r h

/-- C10: when adding the duration to the current instant overflows
(checked_add is None), wait_timeout waits with no deadline at all: it
behaves exactly like a wait with no deadline, and whenever it returns, the
result is a received notification -- it can never return None. -/
theorem overflow_deadline_waits_forever :
    ∀ (T : Type) (bound now d : Nat) (initReg ot : Option T)
      (trace : List (Nat × Option T)),
      instant_checked_add bound now d = none →
      wait_timeout bound now d initReg ot trace =
        wait_with_parker none initReg ot trace ∧
      (∀ r : Option T,
        wait_timeout bound now d initReg ot trace = some r →
        ∃ t, r = some t) := by
  intro T bound now d initReg ot trace h
  have he : wait_timeout bound now d initReg ot trace =
      wait_with_parker none initReg ot trace := by
    unfold wait_timeout
    rw [h]
  refine ⟨he, ?_⟩
  intro r hr
  rw [he] at hr
  unfold wait_with_parker at hr
  cases initReg with
  | some tag =>
    refine ⟨tag, ?_⟩
    simpa using hr.symm
  | none => exact waitLoop_none_yields_notification ot trace r hr

/-- Witness for the cascade theorem, twice: dropping a notified guard that is
not at the head of the registry (L1, L2, L3 with L1 and L2 notified by
notify(2); dropping L2 promotes L3), and the claim's concrete scenario (L1
(id 0) notified by notify(1), L2 (id 1) still Created; dropping L1 leaves L2
notified). -/
theorem cascade_on_drop_witness :
    (∀ p ∈ [((0 : Nat), State.Notified false ())], p.2.is_notified = true) ∧
    (State.Created : State Unit).is_notified = false ∧
    Inner.remove
        (⟨[(0, State.Notified false ()), (1, State.Notified false ()),
          (2, State.Created)], 3⟩ : Inner Unit) 1 true =
      (⟨[(0, State.Notified false ()), (2, State.Notified true ())], 3⟩,
        some (State.Notified false ()), []) ∧
    Inner.remove
        (⟨[(0, State.Notified false ()), (1, State.Created)], 2⟩ :
          Inner Unit) 0 true =
      (⟨[(1, State.Notified true ())], 2⟩, some (State.Notified false ()),
        []) :=
  ⟨by decide, rfl,
    by
      simpa using cascade_on_drop Unit 1 false ()
        [(0, State.Notified false ())] [(2, State.Created)]
        [(0, State.Notified false ())] [] 2 State.Created 3
        (by decide) (by decide) rfl (by decide) rfl,
    by
      simpa using cascade_on_drop Unit 0 false () [] [(1, State.Created)]
        [] [] 1 State.Created 2 (by decide) (by decide) rfl (by decide) rfl⟩

/-- Witness for the idempotence theorem: with one of two listeners already
notified, a non-additional notify(1) leaves everything unchanged. -/
theorem notify_idempotent_below_count_witness :
    1 ≤ Inner.notifiedCount
        (⟨[(0, State.Notified false ()), (1, State.Created)], 2⟩ :
          Inner Unit) ∧
    1 ≤ usizeMAX ∧
    Event.notify
        (some (⟨[(0, State.Notified false ()), (1, State.Created)], 2⟩ :
          Inner Unit)) ⟨1, false, false, ()⟩ =
      (some ⟨[(0, State.Notified false ()), (1, State.Created)], 2⟩, []) :=
  ⟨by decide, by decide,
    notify_idempotent_below_count Unit
      ⟨[(0, State.Notified false ()), (1, State.Created)], 2⟩ 1 false ()
      (by decide) (by decide)⟩

/-- Witness for the discard theorem, at the claim's concrete scenario:
L1 (id 0) notified, L2 (id 1) not; discarding L1 returns true and leaves L2
untouched (no cascade), then discarding L2 returns false. -/
theorem discard_no_cascade_witness :
    Inner.lookup
        (⟨[(0, State.Notified false ()), (1, State.Created)], 2⟩ :
          Inner Unit) 0 = some (State.Notified false ()) ∧
    Listener.discard
        (⟨[(0, State.Notified false ()), (1, State.Created)], 2⟩ :
          Inner Unit) 0 = (⟨[(1, State.Created)], 2⟩, true) ∧
    Inner.lookup (⟨[(1, State.Created)], 2⟩ : Inner Unit) 1 =
      some State.Created ∧
    Listener.discard (⟨[(1, State.Created)], 2⟩ : Inner Unit) 1 =
      (⟨[], 2⟩, false) :=
  ⟨rfl,
    by
      simpa using (discard_no_cascade Unit
        ⟨[(0, State.Notified false ()), (1, State.Created)], 2⟩ 0
        (State.Notified false ()) rfl).1,
    rfl,
    by
      simpa using (discard_no_cascade Unit ⟨[(1, State.Created)], 2⟩ 1
        State.Created rfl).1⟩

/-- Witness for the timeout theorem: a lone waiting listener (id 5, Task
state) whose deadline 3 has passed at time 7 returns the timeout value, is
removed from the registry and reports no notification. -/
theorem timeout_removes_node_witness :
    Inner.lookup (⟨[(5, State.Task)], 6⟩ : Inner Unit) 5 = some State.Task ∧
    (State.Task : State Unit) ≠ State.NotifiedTaken ∧
    (3 : Nat) ≤ 7 ∧
    waitLoop (some 3) (none : Option Unit) [(7, none)] = some none ∧
    Listener.timeout_return (⟨[(5, State.Task)], 6⟩ : Inner Unit) 5 =
      (⟨[], 6⟩, Except.ok none) ∧
    Inner.lookup (⟨[], 6⟩ : Inner Unit) 5 = none := by
  have H := timeout_removes_node Unit ⟨[(5, State.Task)], 6⟩ 5 State.Task 3 7
    none none [] rfl (by decide) (by decide)
  exact ⟨rfl, by decide, by decide, H.1, by simpa using H.2.1, rfl⟩

/-- Witness for the overflow theorem: instant 8 plus duration 5 overflows the
bound 10, and the resulting wait returns only notifications. -/
theorem overflow_deadline_waits_forever_witness :
    instant_checked_add 10 8 5 = none ∧
    wait_timeout 10 8 5 (none : Option Unit) none [(0, none), (1, some ())] =
      some (some ()) ∧
    (∃ t : Unit, (some () : Option Unit) = some t) :=
  ⟨rfl, rfl,
    (overflow_deadline_waits_forever Unit 10 8 5 none none
      [(0, none), (1, some ())] rfl).2 (some ()) rfl⟩

end EventListener
